import Mathlib

/-!
Verification development for the PixelcadeSportsLooper repository
(src/sportslooper.py and src/piVersion.py). The two scripts are
near-identical clones; definitions below are shallow embeddings of the
shared functions, with separate definitions where the two files differ
(the health-request timeout binding and the date computation in the
main loop). Time is modelled in abstract units (seconds for waits,
minutes for the cache TTL), network calls as explicit outcome
parameters, and the module side effects as explicit effect lists.
-/

set_option autoImplicit false

namespace SportsLooper

/-! ### Game data model

A game record from the ESPN scoreboard JSON, restricted to the fields
the scripts inspect: the optional list under the key competitions
(`none` models an absent key), and for each competition the optional
list under the key competitors, each competitor given by its team
abbreviation string (the scripts read comp["team"]["abbreviation"]). -/

structure Competition where
  competitors : Option (List String)
  deriving Repr, DecidableEq

structure Game where
  competitions : Option (List Competition)
  deriving Repr, DecidableEq

/-! ### Team filter (sports branch of display_module)

Embeds the list comprehension at sportslooper.py lines 296-304
(piVersion.py lines 288-296). -/

/-- Structural guard of the comprehension: competitions key present,
list non-empty, and the first competition has a competitors key. -/
def structureOk (g : Game) : Bool :=
  match g.competitions with
  | some (c :: _) => c.competitors.isSome
  | _ => false

/-- Competitors list read by the comprehension:
game["competitions"][0].get("competitors", []) mapped to abbreviations. -/
def firstCompetitionCompetitors (g : Game) : List String :=
  match g.competitions with
  | some (c :: _) => c.competitors.getD []
  | _ => []

/-- Match test of the comprehension: the structural guard plus
any(team == comp abbreviation for comp in competitors for team in teams). -/
def gameMatches (teams : List String) (g : Game) : Bool :=
  structureOk g &&
    (firstCompetitionCompetitors g).any (fun ab => teams.any (fun team => team == ab))

/-- Team list parsing: config value split on commas, entries stripped,
empty entries dropped (lines 291-292 of sportslooper.py). -/
def leagueTeams (raw : String) : List String :=
  ((raw.splitOn ",").map String.trim).filter (fun t => t ≠ "")

/-- The filter application guarded by
`if teams and config["sports"].getboolean("use_team_filter", True):`
(line 294): filtering happens only when the parsed team list is
non-empty and the flag is true; otherwise games pass through unchanged. -/
def apply_team_filter (teams : List String) (useTeamFilter : Bool)
    (games : List Game) : List Game :=
  if !teams.isEmpty && useTeamFilter then games.filter (gameMatches teams) else games

/-- Modelled from the spec: the set of competitor abbreviations of a
game as the spec words it (some competitor of the game), across all of
its competitions. Used only to compare the source filter against the
spec wording of C6. -/
def specGameCompetitors (g : Game) : List String :=
  (g.competitions.getD []).flatMap (fun c => c.competitors.getD [])

/-- Modelled from the spec: at least one configured team abbreviation
equals some competitor abbreviation. -/
def specMatches (teams : List String) (g : Game) : Bool :=
  (specGameCompetitors g).any (fun ab => teams.any (fun team => team == ab))

/-- The standard upstream shape: exactly one competition carrying a
competitors key. -/
def standardShape (g : Game) : Bool :=
  match g.competitions with
  | some [c] => c.competitors.isSome
  | _ => false

/-! ### Per-league sports dispatch (lines 277-321 of sportslooper.py)

For one league of the SUPPORTED_LEAGUES iteration: skip if the league
is not enabled in config; skip (continue) if the cached game list is
empty BEFORE filtering; otherwise apply the team filter, issue the
display request for the league, and wait
max(len(games) * seconds_per_game, seconds_per_game) seconds. -/

inductive LeagueAction where
  /-- League not enabled in the sports config section: continue. -/
  | skippedDisabled
  /-- game_cache.get(league, []) was empty: continue before filtering. -/
  | skippedNoGames
  /-- Display request issued for the league, showing the (possibly
  filtered) games for the recorded number of seconds. -/
  | displayed (shownGames : List Game) (displayTime : Nat)
  deriving Repr, DecidableEq

def sports_league_step (enabled : Bool) (cached : List Game) (teams : List String)
    (useTeamFilter : Bool) (secondsPerGame : Nat) : LeagueAction :=
  if !enabled then .skippedDisabled
  else if cached.isEmpty then .skippedNoGames
  else
    let games := apply_team_filter teams useTeamFilter cached
    .displayed games (max (games.length * secondsPerGame) secondsPerGame)

/-! ### Game cache (lines 115-179 of both files)

game_cache is a dict from league id to game list, modelled as an
association list; cache_expiry is a timestamp, modelled in minutes.
An upstream fetch outcome is a function from league to
`Option (List Game)` where `none` models a requests.RequestException. -/

structure CacheState where
  game_cache : List (String × List Game)
  cache_expiry : Nat
  deriving Repr, DecidableEq

/-- game_cache.get(league, []). -/
def cache_get (c : List (String × List Game)) (league : String) : List Game :=
  (c.lookup league).getD []

/-- fetch_espn_games (lines 137-158): return the fetched events on
success; on a RequestException fall back to game_cache.get(league, []),
reading the cache as it stands when the fetch runs (the old cache,
since the new dict is assigned only after the comprehension finishes). -/
def fetch_espn_games (oldCache : List (String × List Game))
    (fetchResult : String → Option (List Game)) (league : String) : List Game :=
  match fetchResult league with
  | some games => games
  | none => cache_get oldCache league

/-- update_game_cache (lines 160-179): if now >= cache_expiry, rebuild
the whole dict from the enabled leagues (one fetch each) and set
cache_expiry = now + 30 minutes; otherwise do nothing. The second
component records which leagues were fetched upstream in this call. -/
def update_game_cache (now : Nat) (enabledLeagues : List String)
    (fetchResult : String → Option (List Game)) (st : CacheState) :
    CacheState × List String :=
  if st.cache_expiry ≤ now then
    ({ game_cache :=
         enabledLeagues.map (fun l => (l, fetch_espn_games st.game_cache fetchResult l)),
       cache_expiry := now + 30 },
     enabledLeagues)
  else (st, [])

/-! ### Cancellable wait

Every display wait in display_module has the shape
`for _ in range(int(duration)): if stop check: return; time.sleep(1)`
(weather line 255, clock line 269, sports line 318, stocks line 335,
news line 388 of sportslooper.py, and the matching lines of
piVersion.py). `stopSignaled t` is the value the stop-event check
observes at elapsed time t; the function returns the elapsed time at
which the wait ends (by cancellation or by completing the duration). -/

def cancellable_wait (stopSignaled : Nat → Bool) : Nat → Nat → Nat
  | 0, t => t
  | d + 1, t => if stopSignaled t then t else cancellable_wait stopSignaled d (t + 1)

/-! ### Health probe (check_pixelcade_health, lines 119-135)

The function body issues one GET bounded by a timeout and either
returns True or re-raises the RequestException; the tenacity decorator
`retry(stop=stop_after_attempt(3), wait=wait_fixed(2))` retries the
body up to 3 times with a fixed 2-second wait between attempts, and
raises tenacity.RetryError after the third failure. `attemptOk i` is
whether attempt i (0-based) succeeds. The result carries the number of
attempts used and the total fixed delay waited between attempts. -/

inductive ProbeOutcome where
  /-- The body returned True on some attempt. -/
  | responsive (attemptsUsed : Nat)
  /-- All attempts failed: tenacity raises RetryError, a condition
  distinct from a single RequestException. -/
  | retryError
  deriving Repr, DecidableEq

def retry_health (attemptOk : Nat → Bool) : Nat → Nat → Nat → ProbeOutcome × Nat
  | 0, _, d => (.retryError, d)
  | 1, i, d => if attemptOk i then (.responsive (i + 1), d) else (.retryError, d)
  | n + 2, i, d =>
    if attemptOk i then (.responsive (i + 1), d)
    else retry_health attemptOk (n + 1) (i + 1) (d + 2)

def check_pixelcade_health (attemptOk : Nat → Bool) : ProbeOutcome × Nat :=
  retry_health attemptOk 3 0 0

/-- Configuration slice for the health probe (both files, lines 78-79).
sportslooper.py reads health_check_interval with fallback 10.0 and
piVersion.py with fallback 30.0; both read health_check_timeout with
fallback 5.0. -/
structure PixelcadeConfig where
  health_check_interval : Nat
  health_check_timeout : Nat
  deriving Repr, DecidableEq

/-- Timeout passed to the health GET by sportslooper.py line 127:
`timeout=health_check_interval`. -/
def sportslooper_health_request_timeout (cfg : PixelcadeConfig) : Nat :=
  cfg.health_check_interval

/-- Timeout passed to the health GET by piVersion.py line 127:
`timeout=health_check_timeout`. -/
def piVersion_health_request_timeout (cfg : PixelcadeConfig) : Nat :=
  cfg.health_check_timeout

/-- Default configuration of sportslooper.py (fallbacks of lines 78-79:
interval 10.0 and timeout 5.0). -/
def sportslooper_default_config : PixelcadeConfig :=
  { health_check_interval := 10, health_check_timeout := 5 }

/-! ### display_module health gate (lines 209-243 of sportslooper.py,
lines 199-234 of piVersion.py)

Observable effects of a display_module call: outbound display requests
to the Pixelcade server and entries written to the secondary fallback
log (fallback_logger). The main rotating log is not modelled. -/

inductive Effect where
  | displayCall (endpoint : String)
  | fallbackLog (msg : String)
  deriving Repr, DecidableEq

def Effect.isDisplayCall : Effect → Bool
  | .displayCall _ => true
  | .fallbackLog _ => false

def Effect.isFallbackLog : Effect → Bool
  | .displayCall _ => false
  | .fallbackLog _ => true

/-- Outcome of the check_pixelcade_health() call made at the top of
display_module: the decorated function either returns True, or (dead
branch kept from the source) returns a falsy value, or raises, which
the caller catches as RequestException or tenacity.RetryError. -/
inductive HealthOutcome where
  | returnsTrue
  | returnsFalse
  | raisesRetryError
  deriving Repr, DecidableEq

/-- display_module up to and including its enabled check, with the
module body abstracted as the effect list it would produce: return
immediately if the stop event is already signaled; on an unresponsive
health result write one fallback-log line and return; skip silently
when the module has no config section or is disabled; otherwise run
the module body. -/
def display_module_effects (module : String) (stopSet : Bool)
    (health : HealthOutcome) (hasSection : Bool) (enabledFlag : Bool)
    (body : List Effect) : List Effect :=
  if stopSet then []
  else
    match health with
    | .returnsFalse =>
        [Effect.fallbackLog
          ("Cannot display module " ++ module ++ ": Pixelcade server offline")]
    | .raisesRetryError =>
        [Effect.fallbackLog
          ("Cannot display module " ++ module ++ ": Pixelcade server offline after retries")]
    | .returnsTrue =>
        if !hasSection then []
        else if !enabledFlag then []
        else body

/-! ### News module (lines 360-392 of sportslooper.py, 352-384 of
piVersion.py)

Iterate the configured feeds; before starting each feed, break if
max_total_runtime is non-zero and total_elapsed >= max_total_runtime;
a failed ticker request skips the feed (continue) without advancing
total_elapsed; a successful one displays for the full duration_per_feed
and then adds it to total_elapsed. The result is the number of feeds
displayed and the final total_elapsed. -/

def news_loop (requestOk : String → Bool) (durationPerFeed maxTotalRuntime : Nat) :
    List String → Nat → Nat × Nat
  | [], totalElapsed => (0, totalElapsed)
  | feed :: rest, totalElapsed =>
    if maxTotalRuntime ≠ 0 ∧ maxTotalRuntime ≤ totalElapsed then (0, totalElapsed)
    else if requestOk feed then
      let r := news_loop requestOk durationPerFeed maxTotalRuntime rest
                 (totalElapsed + durationPerFeed)
      (r.1 + 1, r.2)
    else news_loop requestOk durationPerFeed maxTotalRuntime rest totalElapsed

/-! ### Scheduler date handling

One pass of the cycling loop invokes display_module once per module of
the configured sequence, passing it the date argument in scope. In
sportslooper.py (lines 528-543) `date = datetime.now().strftime` is
re-evaluated at the top of the while loop, once per pass; in
piVersion.py (lines 436 and 505-513) it is evaluated once before the
loop. `dateAtPassStart k` is the calendar date at the start of pass k. -/

def module_pass (dateNow : String) (modules : List String) : List (String × String) :=
  modules.map (fun m => (m, dateNow))

/-- Module invocations of the first numPasses passes of the
sportslooper.py cycling loop: the date is recomputed at the start of
each pass. -/
def sportslooper_invocations (dateAtPassStart : Nat → String)
    (modules : List String) (numPasses : Nat) : List (String × String) :=
  (List.range numPasses).flatMap (fun k => module_pass (dateAtPassStart k) modules)

/-- Module invocations of the first numPasses passes of the
piVersion.py cycling loop: the date is computed once before the loop
and reused by every pass. -/
def piVersion_invocations (dateAtStart : String)
    (modules : List String) (numPasses : Nat) : List (String × String) :=
  (List.range numPasses).flatMap (fun _ => module_pass dateAtStart modules)

/-! ### Helper lemmas -/

/-- With a cancellation flag that becomes (and stays) set at time T, a
wait started at elapsed time s with s ≤ T runs until the first check
that observes the flag, or until the duration runs out. -/
theorem cancellable_wait_signaled (T : Nat) :
    ∀ (d s : Nat), s ≤ T →
      cancellable_wait (fun t => decide (T ≤ t)) d s = min T (s + d) := by
  intro d
  induction d with
  | zero =>
    intro s hs
    simp only [cancellable_wait]
    omega
  | succ d ih =>
    intro s hs
    simp only [cancellable_wait]
    split
    next h =>
      simp only [decide_eq_true_eq] at h
      omega
    next h =>
      simp only [decide_eq_true_eq] at h
      rw [ih (s + 1) (by omega)]
      omega

/-- A wait whose cancellation flag is never set runs its full duration. -/
theorem cancellable_wait_uncancelled :
    ∀ (d s : Nat), cancellable_wait (fun _ => false) d s = s + d := by
  intro d
  induction d with
  | zero =>
    simp [cancellable_wait]
  | succ d ih =>
    intro s
    simp only [cancellable_wait, Bool.false_eq_true, if_false]
    rw [ih (s + 1)]
    omega

/-- Looking a key up in an association list built by pairing each list
element with a computed value returns the computed value of the key,
whenever the key occurs in the element list. -/
theorem lookup_map_pair {α : Type} (f : String → α) :
    ∀ (ls : List String) (l : String), l ∈ ls →
      List.lookup l (ls.map (fun x => (x, f x))) = some (f l) := by
  intro ls
  induction ls with
  | nil =>
    intro l hl
    simp at hl
  | cons x xs ih =>
    intro l hl
    by_cases hx : l = x
    · subst hx
      simp [List.lookup]
    · have hmem : l ∈ xs := by
        rcases List.mem_cons.mp hl with h | h
        · exact absurd h hx
        · exact h
      have hbeq : (l == x) = false := beq_eq_false_iff_ne.mpr hx
      simp [List.lookup, hbeq, ih l hmem]

/-- On games of the standard upstream shape (exactly one competition
with a competitors key), the match test of the source comprehension
coincides with the spec wording (some competitor of the game). -/
theorem gameMatches_eq_specMatches (teams : List String) (g : Game)
    (h : standardShape g = true) : gameMatches teams g = specMatches teams g := by
  rcases g with ⟨comps⟩
  cases comps with
  | none => simp [standardShape] at h
  | some cs =>
    cases cs with
    | nil => simp [standardShape] at h
    | cons c rest =>
      cases rest with
      | cons c2 rest2 => simp [standardShape] at h
      | nil =>
        cases hc : c.competitors with
        | none =>
          rw [standardShape] at h
          simp [hc] at h
        | some abbrs =>
          simp [gameMatches, structureOk, firstCompetitionCompetitors, specMatches,
            specGameCompetitors, hc]

/-- With max_total_runtime = 0 the cap never fires: every feed whose
ticker request succeeds is displayed. -/
theorem news_loop_count_unlimited (requestOk : String → Bool) (d : Nat) :
    ∀ (feeds : List String) (e0 : Nat),
      (news_loop requestOk d 0 feeds e0).1 = (feeds.filter requestOk).length := by
  intro feeds
  induction feeds with
  | nil =>
    intro e0
    simp [news_loop]
  | cons f rest ih =>
    intro e0
    cases hf : requestOk f with
    | true => simp [news_loop, hf, ih]
    | false => simp [news_loop, hf, ih]

/-- Every displayed feed contributes exactly its full per-feed duration
to the elapsed total: the run never truncates a feed in progress. -/
theorem news_loop_elapsed (requestOk : String → Bool) (d cap : Nat) :
    ∀ (feeds : List String) (e0 : Nat),
      (news_loop requestOk d cap feeds e0).2 =
        e0 + (news_loop requestOk d cap feeds e0).1 * d := by
  intro feeds
  induction feeds with
  | nil =>
    intro e0
    simp [news_loop]
  | cons f rest ih =>
    intro e0
    by_cases hcap : cap ≠ 0 ∧ cap ≤ e0
    · simp [news_loop, hcap]
    · cases hf : requestOk f with
      | true =>
        simp only [news_loop, hcap, if_false, hf, if_true]
        rw [ih (e0 + d)]
        ring
      | false =>
        simp only [news_loop, hcap, if_false, hf]
        exact ih e0

/-! ### Claim theorems -/

/-- C1: every per-module display wait decomposes into one-second sleep
increments each preceded by a stop-event check, so with a cancellation
flag that becomes set at time T < D the wait returns at time T (in
particular within one time unit of T) instead of running to D, while an
uncancelled wait runs the full configured duration D. -/
theorem c1_cancellable_wait (T D : Nat) (h : T < D) :
    cancellable_wait (fun t => decide (T ≤ t)) D 0 = T ∧
    cancellable_wait (fun t => decide (T ≤ t)) D 0 ≤ T + 1 ∧
    cancellable_wait (fun _ => false) D 0 = D := by
  have h1 := cancellable_wait_signaled T D 0 (by omega)
  have h2 := cancellable_wait_uncancelled D 0
  refine ⟨?_, ?_, ?_⟩
  · rw [h1]; omega
  · rw [h1]; omega
  · rw [h2]; omega

theorem c1_cancellable_wait_witness :
    cancellable_wait (fun t => decide (3 ≤ t)) 10 0 = 3 ∧
    cancellable_wait (fun t => decide (3 ≤ t)) 10 0 ≤ 3 + 1 ∧
    cancellable_wait (fun _ => false) 10 0 = 10 :=
  c1_cancellable_wait 3 10 (by decide)

/-- C2: a call to update_game_cache strictly before cache_expiry leaves
the state unchanged and fetches nothing; a call at or after the expiry
fetches exactly once per enabled league, replaces the cache wholesale
with the freshly built mapping, and sets cache_expiry to now plus 30
minutes regardless of per-league fetch outcomes; consequently any
further call within the following 30 minutes is a no-op, so upstream is
fetched at most once per 30-minute window. -/
theorem c2_cache_ttl (now : Nat) (enabled : List String)
    (fr : String → Option (List Game)) (st : CacheState) :
    (now < st.cache_expiry → update_game_cache now enabled fr st = (st, [])) ∧
    (st.cache_expiry ≤ now →
      (update_game_cache now enabled fr st).2 = enabled ∧
      (update_game_cache now enabled fr st).1.cache_expiry = now + 30 ∧
      (update_game_cache now enabled fr st).1.game_cache =
        enabled.map (fun l => (l, fetch_espn_games st.game_cache fr l))) ∧
    (st.cache_expiry ≤ now → ∀ (t : Nat) (enabled2 : List String)
        (fr2 : String → Option (List Game)), t < now + 30 →
      update_game_cache t enabled2 fr2 (update_game_cache now enabled fr st).1 =
        ((update_game_cache now enabled fr st).1, [])) := by
  refine ⟨?_, ?_, ?_⟩
  · intro h
    rw [update_game_cache, if_neg (by omega)]
  · intro h
    rw [update_game_cache, if_pos h]
    exact ⟨rfl, rfl, rfl⟩
  · intro h t enabled2 fr2 ht
    have hexp : (update_game_cache now enabled fr st).1.cache_expiry = now + 30 := by
      rw [update_game_cache, if_pos h]
    rw [update_game_cache, if_neg (by rw [hexp]; omega)]

theorem c2_cache_ttl_witness :
    (5 < (CacheState.mk [("nfl", [])] 10).cache_expiry →
      update_game_cache 5 ["nfl"] (fun _ => none) (CacheState.mk [("nfl", [])] 10) =
        (CacheState.mk [("nfl", [])] 10, [])) ∧
    update_game_cache 5 ["nfl"] (fun _ => none) (CacheState.mk [("nfl", [])] 10) =
      (CacheState.mk [("nfl", [])] 10, []) ∧
    (update_game_cache 12 ["nfl"] (fun _ => none) (CacheState.mk [("nfl", [])] 10)).1.cache_expiry
      = 42 ∧
    update_game_cache 41 ["nfl"] (fun _ => some [])
        (update_game_cache 12 ["nfl"] (fun _ => none) (CacheState.mk [("nfl", [])] 10)).1 =
      ((update_game_cache 12 ["nfl"] (fun _ => none) (CacheState.mk [("nfl", [])] 10)).1, []) := by
  have hnoop := (c2_cache_ttl 5 ["nfl"] (fun _ => none) (CacheState.mk [("nfl", [])] 10)).1
  have hfresh := (c2_cache_ttl 12 ["nfl"] (fun _ => none) (CacheState.mk [("nfl", [])] 10)).2.1
    (by decide)
  have hwin := (c2_cache_ttl 12 ["nfl"] (fun _ => none) (CacheState.mk [("nfl", [])] 10)).2.2
    (by decide) 41 ["nfl"] (fun _ => some []) (by decide)
  exact ⟨hnoop, hnoop (by decide), hfresh.2.1, hwin⟩

/-- C3: if the fetch of a league fails on refresh N after succeeding on
refresh N-1, the fallback inside fetch_espn_games reads the cache as it
stood before the wholesale replacement, so after refresh N the cached
value of that league is exactly the data of refresh N-1, not an empty
result. -/
theorem c3_cache_fallback (t0 t1 : Nat) (enabled0 enabled1 : List String)
    (fr0 fr1 : String → Option (List Game)) (st0 : CacheState)
    (league : String) (data : List Game)
    (hmem0 : league ∈ enabled0) (hmem1 : league ∈ enabled1)
    (hexp0 : st0.cache_expiry ≤ t0) (hsucc : fr0 league = some data)
    (hexp1 : (update_game_cache t0 enabled0 fr0 st0).1.cache_expiry ≤ t1)
    (hfail : fr1 league = none) :
    cache_get (update_game_cache t1 enabled1 fr1
        (update_game_cache t0 enabled0 fr0 st0).1).1.game_cache league = data := by
  have hst1 : (update_game_cache t0 enabled0 fr0 st0).1.game_cache =
      enabled0.map (fun l => (l, fetch_espn_games st0.game_cache fr0 l)) := by
    rw [update_game_cache, if_pos hexp0]
  rw [update_game_cache, if_pos hexp1]
  rw [cache_get, lookup_map_pair _ enabled1 league hmem1]
  simp only [Option.getD_some]
  rw [fetch_espn_games, hfail]
  rw [hst1, cache_get, lookup_map_pair _ enabled0 league hmem0]
  simp [fetch_espn_games, hsucc]

theorem c3_cache_fallback_witness :
    cache_get (update_game_cache 30 ["nfl"] (fun _ => none)
        (update_game_cache 0 ["nfl"]
          (fun _ => some [{ competitions := some [{ competitors := some ["KC", "BUF"] }] }])
          (CacheState.mk [] 0)).1).1.game_cache "nfl" =
      [{ competitions := some [{ competitors := some ["KC", "BUF"] }] }] :=
  c3_cache_fallback 0 30 ["nfl"] ["nfl"]
    (fun _ => some [{ competitions := some [{ competitors := some ["KC", "BUF"] }] }])
    (fun _ => none) (CacheState.mk [] 0) "nfl"
    [{ competitions := some [{ competitors := some ["KC", "BUF"] }] }]
    (by decide) (by decide) (by decide) rfl (by decide) rfl

/-- C4: for any module and any module body, when the health probe at
the top of display_module reports the server unresponsive (the falsy
return branch or the exhausted-retries RetryError branch) the call
issues no display request, writes exactly one entry to the secondary
fallback log, and the effect list is that single entry, the body never
running; the function returns normally in both branches. -/
theorem c4_health_gate (module : String) (health : HealthOutcome)
    (hasSection enabledFlag : Bool) (body : List Effect)
    (hne : health ≠ HealthOutcome.returnsTrue) :
    (display_module_effects module false health hasSection enabledFlag body).countP
        (fun e => e.isFallbackLog) = 1 ∧
    (display_module_effects module false health hasSection enabledFlag body).countP
        (fun e => e.isDisplayCall) = 0 ∧
    (display_module_effects module false health hasSection enabledFlag body).length = 1 := by
  cases health with
  | returnsTrue => exact absurd rfl hne
  | returnsFalse =>
    refine ⟨?_, ?_, ?_⟩ <;>
      simp [display_module_effects, List.countP, List.countP.go, Effect.isFallbackLog,
        Effect.isDisplayCall]
  | raisesRetryError =>
    refine ⟨?_, ?_, ?_⟩ <;>
      simp [display_module_effects, List.countP, List.countP.go, Effect.isFallbackLog,
        Effect.isDisplayCall]

theorem c4_health_gate_witness :
    (display_module_effects "weather" false HealthOutcome.raisesRetryError true true
        [Effect.displayCall "weather"]).countP (fun e => e.isFallbackLog) = 1 ∧
    (display_module_effects "weather" false HealthOutcome.raisesRetryError true true
        [Effect.displayCall "weather"]).countP (fun e => e.isDisplayCall) = 0 ∧
    (display_module_effects "weather" false HealthOutcome.raisesRetryError true true
        [Effect.displayCall "weather"]).length = 1 :=
  c4_health_gate "weather" HealthOutcome.raisesRetryError true true
    [Effect.displayCall "weather"] (by decide)

/-- C5: the tenacity-decorated health probe retries up to 3 times with
a fixed 2-second delay between attempts, returns Responsive on the
first successful attempt, and surfaces exhausting all 3 attempts as the
distinct RetryError outcome; the timeout bounding each attempt is
health_check_timeout in piVersion.py but health_check_interval in
sportslooper.py, where the two differ at the default configuration
(interval 10 vs timeout 5), contradicting the unused
health_check_timeout binding commented as the request timeout. -/
theorem c5_health_probe_retry_and_timeout (attemptOk : Nat → Bool)
    (cfg : PixelcadeConfig) :
    (attemptOk 0 = true → check_pixelcade_health attemptOk = (ProbeOutcome.responsive 1, 0)) ∧
    (attemptOk 0 = false → attemptOk 1 = true →
      check_pixelcade_health attemptOk = (ProbeOutcome.responsive 2, 2)) ∧
    (attemptOk 0 = false → attemptOk 1 = false → attemptOk 2 = true →
      check_pixelcade_health attemptOk = (ProbeOutcome.responsive 3, 4)) ∧
    (attemptOk 0 = false → attemptOk 1 = false → attemptOk 2 = false →
      check_pixelcade_health attemptOk = (ProbeOutcome.retryError, 4)) ∧
    (∀ n, ProbeOutcome.retryError ≠ ProbeOutcome.responsive n) ∧
    piVersion_health_request_timeout cfg = cfg.health_check_timeout ∧
    sportslooper_health_request_timeout cfg = cfg.health_check_interval ∧
    sportslooper_health_request_timeout sportslooper_default_config = 10 ∧
    sportslooper_default_config.health_check_timeout = 5 := by
  refine ⟨?_, ?_, ?_, ?_, ?_, rfl, rfl, rfl, rfl⟩
  · intro h0
    simp [check_pixelcade_health, retry_health, h0]
  · intro h0 h1
    simp [check_pixelcade_health, retry_health, h0, h1]
  · intro h0 h1 h2
    simp [check_pixelcade_health, retry_health, h0, h1, h2]
  · intro h0 h1 h2
    simp [check_pixelcade_health, retry_health, h0, h1, h2]
  · intro n hn
    exact ProbeOutcome.noConfusion hn

theorem c5_health_probe_retry_and_timeout_witness :
    check_pixelcade_health (fun i => i == 2) = (ProbeOutcome.responsive 3, 4) ∧
    check_pixelcade_health (fun _ => false) = (ProbeOutcome.retryError, 4) ∧
    sportslooper_health_request_timeout sportslooper_default_config = 10 ∧
    sportslooper_default_config.health_check_timeout = 5 := by
  have h := c5_health_probe_retry_and_timeout (fun i => i == 2) sportslooper_default_config
  have h2 := c5_health_probe_retry_and_timeout (fun _ => false) sportslooper_default_config
  exact ⟨h.2.2.1 (by decide) (by decide) (by decide),
    h2.2.2.2.1 (by decide) (by decide) (by decide), h.2.2.2.2.2.2.2.1, h.2.2.2.2.2.2.2.2⟩

/-- C6: with a non-empty parsed team list and use_team_filter true, the
sports branch keeps exactly the games passing the comprehension match
test, which on standard-shaped records coincides with keeping exactly
the games where at least one configured team abbreviation equals some
competitor abbreviation, so a filter matching nothing leaves an empty
result; with an empty parsed team list the game list passes through
unchanged and unfiltered. -/
theorem c6_team_filter (teams : List String) (uf : Bool) (games : List Game) :
    apply_team_filter [] uf games = games ∧
    (teams ≠ [] → apply_team_filter teams true games =
      games.filter (gameMatches teams)) ∧
    (teams ≠ [] → (∀ g ∈ games, standardShape g = true) →
      apply_team_filter teams true games = games.filter (specMatches teams)) ∧
    (teams ≠ [] → (∀ g ∈ games, gameMatches teams g = false) →
      apply_team_filter teams true games = []) := by
  refine ⟨?_, ?_, ?_, ?_⟩
  · simp [apply_team_filter]
  · intro hne
    simp [apply_team_filter, List.isEmpty_iff, hne]
  · intro hne hshape
    simp only [apply_team_filter, List.isEmpty_iff, hne, if_pos, Bool.and_true,
      Bool.not_eq_true]
    rw [if_pos (by simp [List.isEmpty_iff, hne])]
    exact List.filter_congr (fun g hg => gameMatches_eq_specMatches teams g (hshape g hg))
  · intro hne hnone
    simp only [apply_team_filter]
    rw [if_pos (by simp [List.isEmpty_iff, hne])]
    exact List.filter_eq_nil_iff.mpr (fun g hg => by simp [hnone g hg])

theorem c6_team_filter_witness :
    apply_team_filter ["A"] true
      [{ competitions := some [{ competitors := some ["A", "B"] }] },
       { competitions := some [{ competitors := some ["C", "D"] }] }] =
      List.filter (specMatches ["A"])
        [{ competitions := some [{ competitors := some ["A", "B"] }] },
         { competitions := some [{ competitors := some ["C", "D"] }] }] ∧
    apply_team_filter [] true
      [{ competitions := some [{ competitors := some ["A", "B"] }] },
       { competitions := some [{ competitors := some ["C", "D"] }] }] =
      [{ competitions := some [{ competitors := some ["A", "B"] }] },
       { competitions := some [{ competitors := some ["C", "D"] }] }] :=
  ⟨(c6_team_filter ["A"] true
      [{ competitions := some [{ competitors := some ["A", "B"] }] },
       { competitions := some [{ competitors := some ["C", "D"] }] }]).2.2.1
      (by decide) (by decide),
   (c6_team_filter ["A"] true
      [{ competitions := some [{ competitors := some ["A", "B"] }] },
       { competitions := some [{ competitors := some ["C", "D"] }] }]).1⟩

/-- C7 counterexample: an enabled league with one cached game whose
only competitors are B and C, filtered with configured teams [A] and
use_team_filter on, is NOT skipped: the per-league step still issues
the display request and shows the league for the secondsPerGame floor
of 4 seconds even though zero games remain after filtering. -/
theorem c7_duration_floor_counterexample :
    sports_league_step true
      [{ competitions := some [{ competitors := some ["B", "C"] }] }]
      ["A"] true 4 =
      LeagueAction.displayed [] 4 ∧
    sports_league_step true
      [{ competitions := some [{ competitors := some ["B", "C"] }] }]
      ["A"] true 4 ≠ LeagueAction.skippedNoGames ∧
    sports_league_step true
      [{ competitions := some [{ competitors := some ["B", "C"] }] }]
      ["A"] true 4 ≠ LeagueAction.skippedDisabled := by
  refine ⟨?_, ?_, ?_⟩ <;> decide

/-- C7 amended: the per-league skip applies exactly to disabled leagues
and to leagues whose cached game list is empty before the team filter
runs; an enabled league with a non-empty cached list always receives a
display call and is shown for max(filteredCount * secondsPerGame,
secondsPerGame), so a league emptied by the filter is still displayed
for the secondsPerGame floor. -/
theorem c7_duration_floor_amended (enabled : Bool) (cached : List Game)
    (teams : List String) (uf : Bool) (spg : Nat) :
    (enabled = false →
      sports_league_step enabled cached teams uf spg = LeagueAction.skippedDisabled) ∧
    (enabled = true → cached = [] →
      sports_league_step enabled cached teams uf spg = LeagueAction.skippedNoGames) ∧
    (enabled = true → cached ≠ [] →
      sports_league_step enabled cached teams uf spg =
        LeagueAction.displayed (apply_team_filter teams uf cached)
          (max ((apply_team_filter teams uf cached).length * spg) spg)) ∧
    (enabled = true → cached ≠ [] → apply_team_filter teams uf cached = [] →
      sports_league_step enabled cached teams uf spg =
        LeagueAction.displayed [] spg) := by
  refine ⟨?_, ?_, ?_, ?_⟩
  · intro h
    subst h
    simp [sports_league_step]
  · intro h hc
    subst h
    subst hc
    simp [sports_league_step]
  · intro h hc
    subst h
    simp [sports_league_step, List.isEmpty_iff, hc]
  · intro h hc hf
    subst h
    simp [sports_league_step, List.isEmpty_iff, hc, hf]

theorem c7_duration_floor_amended_witness :
    sports_league_step true
      [{ competitions := some [{ competitors := some ["B", "C"] }] }]
      ["A"] true 4 =
      LeagueAction.displayed [] 4 ∧
    sports_league_step true [] ["A"] true 4 = LeagueAction.skippedNoGames :=
  ⟨(c7_duration_floor_amended true
      [{ competitions := some [{ competitors := some ["B", "C"] }] }]
      ["A"] true 4).2.2.2 rfl (by decide) (by decide),
   (c7_duration_floor_amended true [] ["A"] true 4).2.1 rfl rfl⟩

/-- C8: the max_total_runtime cap of the news module is evaluated only
before starting a feed and never truncates one in progress: with cap 0
every feed whose ticker request succeeds is displayed, the elapsed
total always equals the number of displayed feeds times the full
per-feed duration, and in the concrete spec scenario of three feeds of
duration 60 under cap 100 exactly the first two feeds run for a total
elapsed time of 120. -/
theorem c8_news_runtime_cap (requestOk : String → Bool) (d cap e0 : Nat)
    (feeds : List String) :
    news_loop (fun _ => true) 60 100 ["F1", "F2", "F3"] 0 = (2, 120) ∧
    (news_loop requestOk d 0 feeds e0).1 = (feeds.filter requestOk).length ∧
    (news_loop requestOk d cap feeds e0).2 =
      e0 + (news_loop requestOk d cap feeds e0).1 * d :=
  ⟨by decide, news_loop_count_unlimited requestOk d feeds e0,
    news_loop_elapsed requestOk d cap feeds e0⟩

/-- C9: one cycling pass hands every module the date in scope; in
sportslooper.py the date is recomputed at the start of each pass, so
pass n uniformly uses the date current at its start and a midnight
crossing takes effect at the next pass, while piVersion.py computes the
date once before the loop, so every later pass still reuses the startup
date, as the concrete two-pass midnight scenario shows. -/
theorem c9_date_per_pass (dateAtPassStart : Nat → String) (d0 : String)
    (modules : List String) (n : Nat) :
    sportslooper_invocations dateAtPassStart modules (n + 1) =
      sportslooper_invocations dateAtPassStart modules n ++
        module_pass (dateAtPassStart n) modules ∧
    (∀ p ∈ module_pass (dateAtPassStart n) modules, p.2 = dateAtPassStart n) ∧
    piVersion_invocations d0 modules (n + 1) =
      piVersion_invocations d0 modules n ++ module_pass d0 modules ∧
    (∀ p ∈ piVersion_invocations d0 modules n, p.2 = d0) ∧
    sportslooper_invocations (fun k => if k = 0 then "20251011" else "20251012")
        ["sports"] 2 =
      [("sports", "20251011"), ("sports", "20251012")] ∧
    piVersion_invocations "20251011" ["sports"] 2 =
      [("sports", "20251011"), ("sports", "20251011")] := by
  refine ⟨?_, ?_, ?_, ?_, ?_, ?_⟩
  · simp [sportslooper_invocations, List.range_succ]
  · intro p hp
    simp only [module_pass, List.mem_map] at hp
    obtain ⟨m, _, hm⟩ := hp
    rw [← hm]
  · simp [piVersion_invocations, List.range_succ]
  · intro p hp
    simp only [piVersion_invocations, List.mem_flatMap, module_pass, List.mem_map] at hp
    obtain ⟨k, _, m, _, hm⟩ := hp
    rw [← hm]
  · decide
  · decide

theorem c9_date_per_pass_witness :
    sportslooper_invocations (fun k => if k = 0 then "20251011" else "20251012")
        ["sports"] 2 =
      [("sports", "20251011"), ("sports", "20251012")] ∧
    piVersion_invocations "20251011" ["sports"] 2 =
      [("sports", "20251011"), ("sports", "20251011")] ∧
    (("sports", "20251011") : String × String).2 = "20251011" := by
  have h := c9_date_per_pass (fun k => if k = 0 then "20251011" else "20251012")
    "20251011" ["sports"] 1
  exact ⟨h.2.2.2.2.1, h.2.2.2.2.2, h.2.2.2.1 ("sports", "20251011") (by decide)⟩

/-- C10: with the filter active every surviving game passes the
structural guard, so a record lacking a non-empty competitions list or
whose first competition lacks a competitors key is excluded even if a
configured team appears among the competitors of a later competition;
with the filter inactive (empty team list or use_team_filter false) the
game list passes through unchanged and malformed records count toward
the display duration of the league. -/
theorem c10_malformed_records (teams : List String) (uf : Bool)
    (games : List Game) (spg : Nat) :
    (teams ≠ [] → ∀ g ∈ apply_team_filter teams true games, structureOk g = true) ∧
    apply_team_filter teams false games = games ∧
    apply_team_filter [] uf games = games ∧
    (games ≠ [] → sports_league_step true games teams false spg =
      LeagueAction.displayed games (max (games.length * spg) spg)) := by
  refine ⟨?_, ?_, ?_, ?_⟩
  · intro hne g hg
    rw [apply_team_filter, if_pos (by simp [List.isEmpty_iff, hne])] at hg
    have hmem := List.mem_filter.mp hg
    have hmatch := hmem.2
    rw [gameMatches] at hmatch
    exact (Bool.and_eq_true_iff.mp hmatch).1
  · simp [apply_team_filter]
  · simp [apply_team_filter]
  · intro hne
    simp [sports_league_step, List.isEmpty_iff, hne, apply_team_filter]

theorem c10_malformed_records_witness :
    (∀ g ∈ apply_team_filter ["A"] true
        [{ competitions := some [{ competitors := none },
            { competitors := some ["A"] }] }],
      structureOk g = true) ∧
    apply_team_filter ["A"] false
      [{ competitions := some [{ competitors := none },
          { competitors := some ["A"] }] }] =
      [{ competitions := some [{ competitors := none },
          { competitors := some ["A"] }] }] ∧
    sports_league_step true
      [{ competitions := some [{ competitors := none },
          { competitors := some ["A"] }] }]
      ["A"] false 4 =
      LeagueAction.displayed
        [{ competitions := some [{ competitors := none },
            { competitors := some ["A"] }] }]
        (max (1 * 4) 4) := by
  have h := c10_malformed_records ["A"] false
    [{ competitions := some [{ competitors := none },
        { competitors := some ["A"] }] }] 4
  exact ⟨h.1 (by decide), h.2.1, by simpa using h.2.2.2 (by decide)⟩

end SportsLooper
